import Mathlib

/-
  Shallow embedding of the Schedule Conflict Detection & Change-Audit
  subsystem of the SSMS backend (src/backend/server.py, SQLite revision).

  Modelling conventions:
  * The two relevant tables (`schedules`, `changelogs`) are lists of records
    in a `DB` structure; `INSERT` appends, `UPDATE ... WHERE id = ?` maps
    over the rows, `SELECT COUNT(*) ... WHERE p` is `(filter p).length`,
    `SELECT * ... WHERE id = ? / fetchone` is `List.find?`.
  * Timestamps are stored by the code as ISO-8601 strings whose SQL ordering
    coincides with chronological order; they are modelled as `Nat`.
  * An HTTP handler is a pure function of the authenticated user, the request
    data, the fresh uuid / clock values and the database state, returning
    `Except HTTPError (DB x result)`; raising `HTTPException` before `commit`
    leaves the database unchanged, which `runState` makes explicit.
-/

namespace SSMS

/- ============ Data model (server.py, Models section) ============ -/

structure User where
  id : String
  username : String
  name : String
  role : String
  created_at : Nat
deriving Repr, DecidableEq

structure ScheduleEntry where
  id : String
  teacher_id : String
  teacher_name : String
  day : String
  period : Nat
  subject : String
  class_name : String
  updated_at : Nat
deriving Repr, DecidableEq

structure ScheduleCreate where
  teacher_id : String
  teacher_name : String
  day : String
  period : Nat
  subject : String
  class_name : String
deriving Repr, DecidableEq

structure ScheduleUpdate where
  subject : Option String
  class_name : Option String
deriving Repr, DecidableEq

structure ChangeLog where
  id : String
  schedule_id : String
  teacher_id : String
  teacher_name : String
  day : String
  period : Nat
  old_value : String
  new_value : String
  changed_by : String
  timestamp : Nat
deriving Repr, DecidableEq

/-- The two persistent tables the subsystem touches. -/
structure DB where
  schedules : List ScheduleEntry
  changelogs : List ChangeLog
deriving Repr, DecidableEq

/-- Mirrors `raise HTTPException(status_code=..., detail=...)`. -/
structure HTTPError where
  status : Nat
  detail : String
deriving Repr, DecidableEq

/- ============ sanitize_input (server.py lines 610-629) ============ -/

/-- Implements `html.escape(text)` (quote=True): since `&` is replaced first and the
replacement strings only introduce `&` themselves, the sequential
`str.replace` chain of CPython is equivalent to this single pass. -/
def htmlEscapeChar (c : Char) : List Char :=
  if c = '&' then ['&', 'a', 'm', 'p', ';']
  else if c = '<' then ['&', 'l', 't', ';']
  else if c = '>' then ['&', 'g', 't', ';']
  else if c = '"' then ['&', 'q', 'u', 'o', 't', ';']
  else if c = '\x27' then ['&', '#', 'x', '2', '7', ';']
  else [c]

def htmlEscape (l : List Char) : List Char :=
  l.foldr (fun c acc => htmlEscapeChar c ++ acc) []

/-- Implements the regex substitution that deletes the patterns `--`, `#`,
`/*` and `*/`: left-to-right non-overlapping removal, trying the
alternatives in order. -/
def removeSqlPatterns : List Char → List Char
  | [] => []
  | '-' :: '-' :: rest => removeSqlPatterns rest
  | '#' :: rest => removeSqlPatterns rest
  | '/' :: '*' :: rest => removeSqlPatterns rest
  | '*' :: '/' :: rest => removeSqlPatterns rest
  | c :: rest => c :: removeSqlPatterns rest

/-- Python `str.strip()` on the ASCII whitespace actually occurring here. -/
def pyStrip (l : List Char) : List Char :=
  ((l.dropWhile Char.isWhitespace).reverse.dropWhile Char.isWhitespace).reverse

/-- server.py `sanitize_input`: remove `<`/`>`, HTML-escape, remove the SQL
comment patterns, strip, truncate to 200 characters; empty input returned
as is (`if not text: return text`). -/
def sanitize_input (text : String) : String :=
  if text == "" then text
  else
    let t1 := text.toList.filter fun c => c != '<' && c != '>'
    let t2 := htmlEscape t1
    let t3 := removeSqlPatterns t2
    let t4 := pyStrip t3
    (if t4.length > 200 then t4.take 200 else t4).asString

/- ============ Conflict / audit invariants (spec I1, I2) ============ -/

/-- Two entries double-book the same class: equal `(day, period, class_name)`. -/
def sameClassSlot (a b : ScheduleEntry) : Prop :=
  a.day = b.day ∧ a.period = b.period ∧ a.class_name = b.class_name

/-- Two entries double-book the same teacher: equal `(day, period, teacher_id)`. -/
def sameTeacherSlot (a b : ScheduleEntry) : Prop :=
  a.day = b.day ∧ a.period = b.period ∧ a.teacher_id = b.teacher_id

instance (a b : ScheduleEntry) : Decidable (sameClassSlot a b) := by
  unfold sameClassSlot; infer_instance

instance (a b : ScheduleEntry) : Decidable (sameTeacherSlot a b) := by
  unfold sameTeacherSlot; infer_instance

/-- Invariant I1: no two entries share a `(day, period, class_name)` triple. -/
def classUnique (l : List ScheduleEntry) : Prop :=
  l.Pairwise fun a b => ¬ sameClassSlot a b

/-- Invariant I2: no two entries share a `(day, period, teacher_id)` triple. -/
def teacherUnique (l : List ScheduleEntry) : Prop :=
  l.Pairwise fun a b => ¬ sameTeacherSlot a b

instance (l : List ScheduleEntry) : Decidable (classUnique l) := by
  unfold classUnique; infer_instance

instance (l : List ScheduleEntry) : Decidable (teacherUnique l) := by
  unfold teacherUnique; infer_instance

/- ============ create_schedule (server.py lines 890-946) ============ -/

def classConflictDetail : String :=
  "Schedule conflict: This class already has a lesson at this time"

def teacherConflictDetail (teacher_name : String) : String :=
  "Schedule conflict: " ++ teacher_name ++ " already has a class at this time"

def adminRequiredDetail : String := "Admin access required"

def scheduleNotFoundDetail : String := "Schedule not found"

/-- Handler for `POST /schedules`. `newId` is the fresh uuid, `now` the clock value. -/
def create_schedule (current_user : User) (schedule_data : ScheduleCreate)
    (newId : String) (now : Nat) (db : DB) : Except HTTPError (DB × ScheduleEntry) :=
  if current_user.role != "admin" then .error ⟨403, adminRequiredDetail⟩
  else
    if 0 < (db.schedules.filter fun s =>
        s.day == schedule_data.day && s.period == schedule_data.period &&
        s.class_name == sanitize_input schedule_data.class_name).length then
      .error ⟨400, classConflictDetail⟩
    else if 0 < (db.schedules.filter fun s =>
        s.day == schedule_data.day && s.period == schedule_data.period &&
        s.teacher_id == schedule_data.teacher_id).length then
      .error ⟨400, teacherConflictDetail schedule_data.teacher_name⟩
    else
      let schedule : ScheduleEntry :=
        { id := newId
          teacher_id := schedule_data.teacher_id
          teacher_name := sanitize_input schedule_data.teacher_name
          day := schedule_data.day
          period := schedule_data.period
          subject := sanitize_input schedule_data.subject
          class_name := sanitize_input schedule_data.class_name
          updated_at := now }
      .ok ({ db with schedules := db.schedules ++ [schedule] }, schedule)

/- ============ update_schedule (server.py lines 948-1053) ============ -/

/-- The change descriptions built at lines 993-998; note the Python truthiness
test `if update_data.subject and ...`, under which a supplied empty string
never counts as a change. -/
def scheduleChanges (update_data : ScheduleUpdate) (existing : ScheduleEntry) : List String :=
  (match update_data.subject with
   | some s =>
       if s != "" && s != existing.subject then
         ["Subject: " ++ existing.subject ++ " → " ++ s] else []
   | none => []) ++
  (match update_data.class_name with
   | some c =>
       if c != "" && c != existing.class_name then
         ["Class: " ++ existing.class_name ++ " → " ++ c] else []
   | none => [])

/-- The `UPDATE schedules SET ... WHERE id = ?` statement applied to one row:
only the supplied (non-None) raw fields plus `updated_at` are set
(lines 1030-1041; note the raw, unsanitized values are written). -/
def applyUpdate (update_data : ScheduleUpdate) (now : Nat) (s : ScheduleEntry) : ScheduleEntry :=
  { s with
    subject := update_data.subject.getD s.subject
    class_name := update_data.class_name.getD s.class_name
    updated_at := now }

/-- Lines 993-1053 of `update_schedule`, after the conflict checks passed:
insert the changelog row iff the change list is non-empty, then apply the
`UPDATE` statement and re-fetch the row. -/
def applyUpdateAndLog (current_user : User) (schedule_id : String)
    (update_data : ScheduleUpdate) (newLogId : String) (now : Nat) (db : DB)
    (existing : ScheduleEntry) (final_subject final_class_name : String) :
    Except HTTPError (DB × ScheduleEntry) :=
  .ok
    ({ schedules := db.schedules.map fun s =>
         if s.id == schedule_id then applyUpdate update_data now s else s
       changelogs :=
         if (scheduleChanges update_data existing).isEmpty then db.changelogs
         else db.changelogs ++
           [{ id := newLogId
              schedule_id := schedule_id
              teacher_id := existing.teacher_id
              teacher_name := existing.teacher_name
              day := existing.day
              period := existing.period
              old_value := existing.subject ++ " - " ++ existing.class_name
              new_value := final_subject ++ " - " ++ final_class_name
              changed_by := current_user.name
              timestamp := now }] },
     ((db.schedules.map fun s =>
         if s.id == schedule_id then applyUpdate update_data now s else s).find? fun s =>
           s.id == schedule_id).getD (applyUpdate update_data now existing))

/-- Handler for `PUT /schedules/{schedule_id}`. The conflict checks run whenever any field
is supplied, match against the sanitized final values, and exclude the row
being updated (`id != ?`). -/
def update_schedule (current_user : User) (schedule_id : String)
    (update_data : ScheduleUpdate) (newLogId : String) (now : Nat) (db : DB) :
    Except HTTPError (DB × ScheduleEntry) :=
  if current_user.role != "admin" then .error ⟨403, adminRequiredDetail⟩
  else
    match db.schedules.find? fun s => s.id == schedule_id with
    | none => .error ⟨404, scheduleNotFoundDetail⟩
    | some existing =>
        if update_data.subject.isSome || update_data.class_name.isSome then
          if 0 < (db.schedules.filter fun s =>
              s.day == existing.day && s.period == existing.period &&
              s.class_name == sanitize_input (update_data.class_name.getD existing.class_name) &&
              s.id != schedule_id).length then
            .error ⟨400, classConflictDetail⟩
          else if 0 < (db.schedules.filter fun s =>
              s.day == existing.day && s.period == existing.period &&
              s.teacher_id == existing.teacher_id && s.id != schedule_id).length then
            .error ⟨400, teacherConflictDetail existing.teacher_name⟩
          else
            applyUpdateAndLog current_user schedule_id update_data newLogId now db existing
              (sanitize_input (update_data.subject.getD existing.subject))
              (sanitize_input (update_data.class_name.getD existing.class_name))
        else
          applyUpdateAndLog current_user schedule_id update_data newLogId now db existing
            (sanitize_input (update_data.subject.getD existing.subject))
            (sanitize_input (update_data.class_name.getD existing.class_name))

/- ============ get_changelogs (server.py lines 1131-1163) ============ -/

/-- Descending timestamp order used by `ORDER BY timestamp DESC`. -/
abbrev tsDescRel (a b : ChangeLog) : Prop := b.timestamp ≤ a.timestamp

instance : DecidableRel tsDescRel := fun a b => Nat.decLe b.timestamp a.timestamp

instance : IsTotal ChangeLog tsDescRel :=
  ⟨fun a b => Or.symm (Nat.le_total a.timestamp b.timestamp)⟩

instance : IsTrans ChangeLog tsDescRel :=
  ⟨fun _ _ _ h1 h2 => Nat.le_trans h2 h1⟩

/-- Models `ORDER BY timestamp DESC` as an insertion sort. -/
def sortDesc (l : List ChangeLog) : List ChangeLog :=
  List.insertionSort tsDescRel l

/-- The WHERE clause of `GET /changelogs`: teachers are forcibly filtered to
their own id; otherwise the filter is applied only when the query parameter is
truthy (`elif teacher_id:` — `None` and the empty string mean no filter). -/
def filteredChangelogs (current_user : User) (teacher_id : Option String) (db : DB) :
    List ChangeLog :=
  if current_user.role == "teacher" then
    db.changelogs.filter fun c => c.teacher_id == current_user.id
  else
    match teacher_id with
    | some t =>
        if t == "" then db.changelogs
        else db.changelogs.filter fun c => c.teacher_id == t
    | none => db.changelogs

/-- Handler for `GET /changelogs`: filtered rows, newest first, `LIMIT 100`. -/
def get_changelogs (current_user : User) (teacher_id : Option String) (db : DB) :
    List ChangeLog :=
  (sortDesc (filteredChangelogs current_user teacher_id db)).take 100

/- ============ Observation helpers ============ -/

/-- The database state after running a handler: an `HTTPException` raised
before `commit` leaves the tables untouched. -/
def runState (r : Except HTTPError (DB × ScheduleEntry)) (db : DB) : DB :=
  match r with
  | .ok (db2, _) => db2
  | .error _ => db

def isOkE : Except HTTPError (DB × ScheduleEntry) → Bool
  | .ok _ => true
  | .error _ => false

/- ============ Concrete states used as test inputs ============ -/

def adminU : User := ⟨("u1"), ("admin123"), ("Administrator"), ("admin"), 0⟩

def teachU : User := ⟨("t1"), ("t_sagnik"), ("Sagnik Sir"), ("teacher"), 0⟩

/-- Two non-conflicting entries; the class name of the first one contains a
leading space, which `sanitize_input` strips. -/
def dbC1 : DB :=
  { schedules :=
      [⟨("a"), ("t1"), ("T One"), ("Monday"), 1, ("Maths"), (" 10A"), 0⟩,
       ⟨("b"), ("t2"), ("T Two"), ("Monday"), 1, ("Bio"), ("10B"), 0⟩]
    changelogs := [] }

def dbC3 : DB :=
  { schedules := [⟨("a"), ("t1"), ("T One"), ("Monday"), 1, ("Math"), ("10A"), 0⟩]
    changelogs := [] }

/-- Two entries whose class names differ only by a leading space. -/
def dbC5 : DB :=
  { schedules :=
      [⟨("a"), ("t1"), ("T One"), ("Monday"), 1, ("Maths"), (" 10A"), 0⟩,
       ⟨("b"), ("t2"), ("T Two"), ("Monday"), 1, ("Bio"), ("10A"), 0⟩]
    changelogs := [] }

def eW4 : ScheduleEntry := ⟨("a"), ("t1"), ("T One"), ("Monday"), 1, ("Math"), ("10A"), 0⟩

def dbW4 : DB := { schedules := [eW4], changelogs := [] }

def updW4 : ScheduleUpdate := ⟨some ("Physics"), none⟩

def resW4 : DB × ScheduleEntry :=
  ({ schedules := [⟨("a"), ("t1"), ("T One"), ("Monday"), 1, ("Physics"), ("10A"), 9⟩]
     changelogs :=
       [⟨("L1"), ("a"), ("t1"), ("T One"), ("Monday"), 1, ("Math - 10A"),
         ("Physics - 10A"), ("Administrator"), 9⟩] },
   ⟨("a"), ("t1"), ("T One"), ("Monday"), 1, ("Physics"), ("10A"), 9⟩)

def dbW8 : DB := { schedules := [], changelogs := [] }

def lgW (i : Nat) : ChangeLog :=
  ⟨toString i, ("s"), ("t1"), ("T"), ("Monday"), 1, ("o"), ("n"), ("A"), i⟩

def dbL : DB := { schedules := [], changelogs := [lgW 3, lgW 1, lgW 2] }

/- ============ Helper lemmas ============ -/

theorem filter_length_pos_iff {α : Type} (l : List α) (p : α → Bool) :
    0 < (l.filter p).length ↔ ∃ a ∈ l, p a = true := by
  simp [List.length_pos_iff_exists_mem, List.mem_filter]

theorem symm_not_sameClassSlot : Symmetric fun a b => ¬ sameClassSlot a b := by
  intro a b h hba
  exact h ⟨hba.1.symm, hba.2.1.symm, hba.2.2.symm⟩

theorem symm_not_sameTeacherSlot : Symmetric fun a b => ¬ sameTeacherSlot a b := by
  intro a b h hba
  exact h ⟨hba.1.symm, hba.2.1.symm, hba.2.2.symm⟩

theorem applyUpdate_id (upd : ScheduleUpdate) (t : Nat) (s : ScheduleEntry) :
    (applyUpdate upd t s).id = s.id := rfl

theorem find?_map_applyUpdate (l : List ScheduleEntry) (sid : String)
    (upd : ScheduleUpdate) (t : Nat) (e : ScheduleEntry)
    (h : l.find? (fun s => s.id == sid) = some e) :
    (l.map fun s => if s.id == sid then applyUpdate upd t s else s).find?
        (fun s => s.id == sid) = some (applyUpdate upd t e) := by
  induction l with
  | nil => simp at h
  | cons x xs ih =>
      by_cases hx : (x.id == sid) = true
      · simp only [List.find?_cons, hx] at h
        injection h with h
        subst h
        simp only [List.map_cons]
        rw [if_pos hx]
        exact @List.find?_cons_of_pos _ (fun s => s.id == sid) (applyUpdate upd t x)
          (List.map (fun s => if s.id == sid then applyUpdate upd t s else s) xs)
          (by simpa [applyUpdate_id] using hx)
      · have hx2 : (x.id == sid) = false := by
          simpa using hx
        simp only [List.find?_cons, hx2] at h
        simp only [List.map_cons, List.find?_cons, hx2, if_false, Bool.false_eq_true]
        exact ih h

theorem update_schedule_notFound (u : User) (sid : String) (upd : ScheduleUpdate)
    (li : String) (t : Nat) (db : DB) (hrole : u.role = "admin")
    (hnone : db.schedules.find? (fun s => s.id == sid) = none) :
    update_schedule u sid upd li t db = .error ⟨404, scheduleNotFoundDetail⟩ := by
  unfold update_schedule
  rw [hnone]
  simp [hrole]

theorem update_schedule_found (u : User) (sid : String) (upd : ScheduleUpdate)
    (li : String) (t : Nat) (db : DB) (e : ScheduleEntry) (hrole : u.role = "admin")
    (hfind : db.schedules.find? (fun s => s.id == sid) = some e) :
    update_schedule u sid upd li t db =
      (if upd.subject.isSome || upd.class_name.isSome then
        if 0 < (db.schedules.filter fun s =>
            s.day == e.day && s.period == e.period &&
            s.class_name == sanitize_input (upd.class_name.getD e.class_name) &&
            s.id != sid).length then
          .error ⟨400, classConflictDetail⟩
        else if 0 < (db.schedules.filter fun s =>
            s.day == e.day && s.period == e.period &&
            s.teacher_id == e.teacher_id && s.id != sid).length then
          .error ⟨400, teacherConflictDetail e.teacher_name⟩
        else
          applyUpdateAndLog u sid upd li t db e
            (sanitize_input (upd.subject.getD e.subject))
            (sanitize_input (upd.class_name.getD e.class_name))
      else
        applyUpdateAndLog u sid upd li t db e
          (sanitize_input (upd.subject.getD e.subject))
          (sanitize_input (upd.class_name.getD e.class_name))) := by
  unfold update_schedule
  rw [if_neg (by simp [hrole]), hfind]

theorem applyUpdateAndLog_ok (u : User) (sid : String) (upd : ScheduleUpdate)
    (li : String) (t : Nat) (db : DB) (e : ScheduleEntry) (fs fc : String)
    (res : DB × ScheduleEntry)
    (hok : applyUpdateAndLog u sid upd li t db e fs fc = .ok res) :
    res.1.schedules =
      (db.schedules.map fun s => if s.id == sid then applyUpdate upd t s else s) ∧
    res.1.changelogs =
      (if (scheduleChanges upd e).isEmpty then db.changelogs
       else db.changelogs ++
         [⟨li, sid, e.teacher_id, e.teacher_name, e.day, e.period,
           e.subject ++ " - " ++ e.class_name, fs ++ " - " ++ fc, u.name, t⟩]) ∧
    res.2 = ((db.schedules.map fun s =>
        if s.id == sid then applyUpdate upd t s else s).find? fun s =>
          s.id == sid).getD (applyUpdate upd t e) := by
  unfold applyUpdateAndLog at hok
  injection hok with hok
  subst hok
  exact ⟨rfl, rfl, rfl⟩

theorem update_schedule_ok_elim (u : User) (sid : String) (upd : ScheduleUpdate)
    (li : String) (t : Nat) (db : DB) (e : ScheduleEntry) (res : DB × ScheduleEntry)
    (hfind : db.schedules.find? (fun s => s.id == sid) = some e)
    (hok : update_schedule u sid upd li t db = .ok res) :
    applyUpdateAndLog u sid upd li t db e
      (sanitize_input (upd.subject.getD e.subject))
      (sanitize_input (upd.class_name.getD e.class_name)) = .ok res := by
  by_cases hr : u.role = "admin"
  · rw [update_schedule_found u sid upd li t db e hr hfind] at hok
    split at hok
    · split at hok
      · exact absurd hok (by simp)
      · split at hok
        · exact absurd hok (by simp)
        · exact hok
    · exact hok
  · unfold update_schedule at hok
    rw [if_pos (by simpa [bne_iff_ne] using hr)] at hok
    exact absurd hok (by simp)

/- ============ Claims ============ -/

/-- Claim C1 (code bug, evaluated at the failing input): starting from the
state `dbC1`, which satisfies both uniqueness invariants, the update of entry
`b` to class name `" 10A"` succeeds, yet the resulting state violates the
`(day, period, class_name)` uniqueness invariant: the conflict check matches
against the sanitized class name (`"10A"`), while the raw supplied value
(`" 10A"`, equal to the class name of entry `a`) is what gets written to the row. -/
theorem C1_invariants_broken_by_update :
    (classUnique dbC1.schedules ∧ teacherUnique dbC1.schedules) ∧
    isOkE (update_schedule adminU ("b") ⟨none, some (" 10A")⟩ ("log1") 5 dbC1) = true ∧
    ¬ classUnique
        (runState (update_schedule adminU ("b") ⟨none, some (" 10A")⟩ ("log1") 5 dbC1)
          dbC1).schedules := by
  decide

/-- Claim C3 (code bug, evaluated at the failing input): updating entry `a`
of `dbC3` with the supplied subject `""` (which differs from the current
subject `"Math"`) succeeds and really changes the stored subject to `""`, yet
appends zero changelog records — the audit condition uses Python truthiness
(`if update_data.subject and ...`), so a supplied empty string is never
logged even though the row is mutated. -/
theorem C3_empty_string_change_unlogged :
    dbC3.schedules = [⟨("a"), ("t1"), ("T One"), ("Monday"), 1, ("Math"), ("10A"), 0⟩] ∧
    dbC3.changelogs = [] ∧
    isOkE (update_schedule adminU ("a") ⟨some (""), none⟩ ("lg") 7 dbC3) = true ∧
    (runState (update_schedule adminU ("a") ⟨some (""), none⟩ ("lg") 7 dbC3) dbC3).schedules =
      [⟨("a"), ("t1"), ("T One"), ("Monday"), 1, (""), ("10A"), 7⟩] ∧
    (runState (update_schedule adminU ("a") ⟨some (""), none⟩ ("lg") 7 dbC3) dbC3).changelogs =
      [] ∧
    ("" : String) ≠ ("Math") := by
  decide

/-- Claim C5, counterexample: in state `dbC5` both uniqueness invariants hold
(the two class names `" 10A"` and `"10A"` are distinct strings), yet a
subject-only update of entry `a` — which changes neither day, period, teacher
nor class_name — is rejected with a class-conflict error: the re-check runs
whenever any field is supplied and matches the sanitized current class name
`"10A"` against the other row. -/
theorem C5_subject_only_conflict_counterexample :
    (classUnique dbC5.schedules ∧ teacherUnique dbC5.schedules) ∧
    (dbC5.schedules.find? fun s => s.id == ("a")) =
      some ⟨("a"), ("t1"), ("T One"), ("Monday"), 1, ("Maths"), (" 10A"), 0⟩ ∧
    update_schedule adminU ("a") ⟨some ("NewSubj"), none⟩ ("lg") 9 dbC5 =
      .error ⟨400, classConflictDetail⟩ := by
  exact ⟨by decide, rfl, rfl⟩

/-- Claim C7, counterexample: a class-conflict rejection of a creation is
surfaced with status code 400, not a 409-equivalent. -/
theorem C7_conflict_status_counterexample :
    create_schedule adminU ⟨("t2"), ("T Two"), ("Monday"), 1, ("Phys"), ("10A")⟩ ("i") 3 dbC3 =
      .error ⟨400, classConflictDetail⟩ ∧ (400 : Nat) ≠ 409 :=
  ⟨rfl, by decide⟩

/-- Claim C2: schedule creation decides conflicts deterministically in a fixed
order — if any existing entry occupies `(day, period, class_name)` (the
class name of the candidate being the sanitized input), the result is the
class-conflict error even when a teacher conflict also exists; otherwise, if
any existing entry occupies `(day, period, teacher_id)`, the result is the
teacher-conflict error; otherwise the creation succeeds and appends exactly
the new entry. A rejected creation leaves the schedules table unchanged. -/
theorem C2_create_conflict_order (u : User) (d : ScheduleCreate) (i : String) (t : Nat)
    (db : DB) (hrole : u.role = "admin") :
    ((∃ s ∈ db.schedules, s.day = d.day ∧ s.period = d.period ∧
        s.class_name = sanitize_input d.class_name) →
      create_schedule u d i t db = .error ⟨400, classConflictDetail⟩ ∧
      runState (create_schedule u d i t db) db = db) ∧
    ((¬ ∃ s ∈ db.schedules, s.day = d.day ∧ s.period = d.period ∧
        s.class_name = sanitize_input d.class_name) →
      (∃ s ∈ db.schedules, s.day = d.day ∧ s.period = d.period ∧
        s.teacher_id = d.teacher_id) →
      create_schedule u d i t db = .error ⟨400, teacherConflictDetail d.teacher_name⟩ ∧
      runState (create_schedule u d i t db) db = db) ∧
    ((¬ ∃ s ∈ db.schedules, s.day = d.day ∧ s.period = d.period ∧
        s.class_name = sanitize_input d.class_name) →
      (¬ ∃ s ∈ db.schedules, s.day = d.day ∧ s.period = d.period ∧
        s.teacher_id = d.teacher_id) →
      ∃ e, create_schedule u d i t db =
        .ok ({ schedules := db.schedules ++ [e], changelogs := db.changelogs }, e)) := by
  have hcls : (0 < (db.schedules.filter fun s =>
      s.day == d.day && s.period == d.period &&
      s.class_name == sanitize_input d.class_name).length) ↔
      ∃ s ∈ db.schedules, s.day = d.day ∧ s.period = d.period ∧
        s.class_name = sanitize_input d.class_name := by
    rw [filter_length_pos_iff]
    simp [Bool.and_eq_true, beq_iff_eq, and_assoc]
  have htch : (0 < (db.schedules.filter fun s =>
      s.day == d.day && s.period == d.period &&
      s.teacher_id == d.teacher_id).length) ↔
      ∃ s ∈ db.schedules, s.day = d.day ∧ s.period = d.period ∧
        s.teacher_id = d.teacher_id := by
    rw [filter_length_pos_iff]
    simp [Bool.and_eq_true, beq_iff_eq, and_assoc]
  refine ⟨?_, ?_, ?_⟩
  · intro h
    have heq : create_schedule u d i t db = .error ⟨400, classConflictDetail⟩ := by
      unfold create_schedule
      rw [if_neg (by simp [hrole]), if_pos (hcls.mpr h)]
    exact ⟨heq, by rw [heq]; rfl⟩
  · intro hnc ht
    have heq : create_schedule u d i t db =
        .error ⟨400, teacherConflictDetail d.teacher_name⟩ := by
      unfold create_schedule
      rw [if_neg (by simp [hrole]), if_neg (fun hh => hnc (hcls.mp hh)),
        if_pos (htch.mpr ht)]
    exact ⟨heq, by rw [heq]; rfl⟩
  · intro hnc hnt
    refine ⟨⟨i, d.teacher_id, sanitize_input d.teacher_name, d.day, d.period,
      sanitize_input d.subject, sanitize_input d.class_name, t⟩, ?_⟩
    unfold create_schedule
    rw [if_neg (by simp [hrole]), if_neg (fun hh => hnc (hcls.mp hh)),
      if_neg (fun hh => hnt (htch.mp hh))]

/-- Claim C2, witness: in a state holding entry `(Monday, 1, t1, 10A)`, a
candidate that conflicts on both the class and the teacher is rejected with
the class-conflict error. -/
theorem C2_create_conflict_order_witness :
    adminU.role = "admin" ∧
    (∃ s ∈ dbW4.schedules, s.day = ("Monday") ∧ s.period = 1 ∧
       s.class_name = sanitize_input ("10A")) ∧
    create_schedule adminU ⟨("t1"), ("T One"), ("Monday"), 1, ("Phys"), ("10A")⟩ ("i") 3 dbW4 =
      .error ⟨400, classConflictDetail⟩ := by
  have hex : ∃ s ∈ dbW4.schedules, s.day = ("Monday") ∧ s.period = 1 ∧
      s.class_name = sanitize_input ("10A") := ⟨eW4, by decide⟩
  exact ⟨rfl, hex,
    ((C2_create_conflict_order adminU ⟨("t1"), ("T One"), ("Monday"), 1, ("Phys"), ("10A")⟩
      ("i") 3 dbW4 rfl).1 hex).1⟩

/-- Claim C4: whenever an update writes a changelog record (the change list is
non-empty), exactly one record is appended; its `old_value` is
`"<old subject> - <old class_name>"`, its `new_value` is
`"<final subject> - <final class_name>"` (the final values as computed by the code, i.e. the
sanitized supplied-or-existing values, both fields concatenated even if only
one changed), and its `schedule_id`, `teacher_id`, `teacher_name`, `day` and
`period` are copied verbatim from the existing entry at call time. -/
theorem C4_changelog_content (u : User) (sid : String) (upd : ScheduleUpdate)
    (li : String) (t : Nat) (db : DB) (e : ScheduleEntry) (res : DB × ScheduleEntry)
    (hfind : db.schedules.find? (fun s => s.id == sid) = some e)
    (hok : update_schedule u sid upd li t db = .ok res)
    (hch : scheduleChanges upd e ≠ []) :
    e.id = sid ∧
    res.1.changelogs = db.changelogs ++
      [{ id := li
         schedule_id := sid
         teacher_id := e.teacher_id
         teacher_name := e.teacher_name
         day := e.day
         period := e.period
         old_value := e.subject ++ " - " ++ e.class_name
         new_value := sanitize_input (upd.subject.getD e.subject) ++ " - " ++
                      sanitize_input (upd.class_name.getD e.class_name)
         changed_by := u.name
         timestamp := t }] := by
  have hid : e.id = sid := by simpa using List.find?_some hfind
  have h2 := update_schedule_ok_elim u sid upd li t db e res hfind hok
  have h3 := (applyUpdateAndLog_ok u sid upd li t db e
    (sanitize_input (upd.subject.getD e.subject))
    (sanitize_input (upd.class_name.getD e.class_name)) res h2).2.1
  rw [if_neg (by simpa [List.isEmpty_iff] using hch)] at h3
  exact ⟨hid, h3⟩

/-- Claim C4, witness: updating `(Math, 10A)` with subject `Physics` appends
exactly one changelog with `old_value = "Math - 10A"` and
`new_value = "Physics - 10A"`. -/
theorem C4_changelog_content_witness :
    (dbW4.schedules.find? fun s => s.id == ("a")) = some eW4 ∧
    update_schedule adminU ("a") updW4 ("L1") 9 dbW4 = .ok resW4 ∧
    scheduleChanges updW4 eW4 ≠ [] ∧
    (eW4.id = ("a") ∧
     resW4.1.changelogs = dbW4.changelogs ++
       [{ id := ("L1")
          schedule_id := ("a")
          teacher_id := eW4.teacher_id
          teacher_name := eW4.teacher_name
          day := eW4.day
          period := eW4.period
          old_value := eW4.subject ++ " - " ++ eW4.class_name
          new_value := sanitize_input (updW4.subject.getD eW4.subject) ++ " - " ++
                       sanitize_input (updW4.class_name.getD eW4.class_name)
          changed_by := adminU.name
          timestamp := 9 }]) :=
  ⟨rfl, rfl, by decide,
    C4_changelog_content adminU ("a") updW4 ("L1") 9 dbW4 eW4 resW4 rfl rfl (by decide)⟩

/-- Claim C8: an update naming a schedule id with no matching entry fails with
the 404 not-found error and leaves both tables completely unchanged. -/
theorem C8_update_not_found (u : User) (sid : String) (upd : ScheduleUpdate)
    (li : String) (t : Nat) (db : DB) (hrole : u.role = "admin")
    (hnone : db.schedules.find? (fun s => s.id == sid) = none) :
    update_schedule u sid upd li t db = .error ⟨404, scheduleNotFoundDetail⟩ ∧
    runState (update_schedule u sid upd li t db) db = db := by
  have h := update_schedule_notFound u sid upd li t db hrole hnone
  exact ⟨h, by rw [h]; rfl⟩

/-- Claim C8, witness: updating an id absent from an empty store yields 404
and the unchanged state. -/
theorem C8_update_not_found_witness :
    adminU.role = "admin" ∧
    (dbW8.schedules.find? fun s => s.id == ("zzz")) = none ∧
    (update_schedule adminU ("zzz") ⟨none, none⟩ ("L") 1 dbW8 =
        .error ⟨404, scheduleNotFoundDetail⟩ ∧
     runState (update_schedule adminU ("zzz") ⟨none, none⟩ ("L") 1 dbW8) dbW8 = dbW8) :=
  ⟨rfl, rfl, C8_update_not_found adminU ("zzz") ⟨none, none⟩ ("L") 1 dbW8 rfl rfl⟩

/-- Claim C9: a successful update maps each stored row with matching id
through `applyUpdate` (which only sets `subject`, `class_name` and
`updated_at`, preserving `id`, `teacher_id`, `teacher_name`, `day` and
`period`), leaves every row with a different id untouched, and returns the
updated row of the target entry. -/
theorem C9_update_frame (u : User) (sid : String) (upd : ScheduleUpdate)
    (li : String) (t : Nat) (db : DB) (e : ScheduleEntry) (res : DB × ScheduleEntry)
    (hfind : db.schedules.find? (fun s => s.id == sid) = some e)
    (hok : update_schedule u sid upd li t db = .ok res) :
    res.1.schedules =
      (db.schedules.map fun s => if s.id == sid then applyUpdate upd t s else s) ∧
    (∀ s : ScheduleEntry, (applyUpdate upd t s).id = s.id ∧
      (applyUpdate upd t s).teacher_id = s.teacher_id ∧
      (applyUpdate upd t s).teacher_name = s.teacher_name ∧
      (applyUpdate upd t s).day = s.day ∧
      (applyUpdate upd t s).period = s.period ∧
      (applyUpdate upd t s).subject = upd.subject.getD s.subject ∧
      (applyUpdate upd t s).class_name = upd.class_name.getD s.class_name ∧
      (applyUpdate upd t s).updated_at = t) ∧
    (∀ s ∈ db.schedules, s.id ≠ sid → s ∈ res.1.schedules) ∧
    res.2 = applyUpdate upd t e := by
  have h2 := update_schedule_ok_elim u sid upd li t db e res hfind hok
  have h3 := applyUpdateAndLog_ok u sid upd li t db e
    (sanitize_input (upd.subject.getD e.subject))
    (sanitize_input (upd.class_name.getD e.class_name)) res h2
  refine ⟨h3.1, fun s => ⟨rfl, rfl, rfl, rfl, rfl, rfl, rfl, rfl⟩, ?_, ?_⟩
  · intro s hs hne
    rw [h3.1]
    refine List.mem_map.mpr ⟨s, hs, ?_⟩
    have hb : ¬ ((s.id == sid) = true) := by simpa using hne
    rw [if_neg hb]
  · rw [h3.2.2, find?_map_applyUpdate db.schedules sid upd t e hfind]
    rfl

/-- Claim C5 (amended): for every state satisfying both uniqueness invariants
in which the class name of the target entry is unchanged by input sanitization, an
update that does not change day, period, teacher or class_name (class_name not
supplied) never reports a conflict — the re-check excludes the entry itself
via `id != schedule_id`, so the entry cannot conflict with its own row. -/
theorem C5_subject_only_never_conflicts (u : User) (sid : String) (upd : ScheduleUpdate)
    (li : String) (t : Nat) (db : DB) (e : ScheduleEntry)
    (hrole : u.role = "admin")
    (hfind : db.schedules.find? (fun s => s.id == sid) = some e)
    (hcu : classUnique db.schedules) (htu : teacherUnique db.schedules)
    (hsan : sanitize_input e.class_name = e.class_name)
    (hnc : upd.class_name = none) :
    ∃ r, update_schedule u sid upd li t db = .ok r := by
  have hmem : e ∈ db.schedules := List.mem_of_find?_eq_some hfind
  have hid : e.id = sid := by simpa using List.find?_some hfind
  have hcls0 : ¬ (0 < (db.schedules.filter fun s =>
      s.day == e.day && s.period == e.period &&
      s.class_name == sanitize_input (upd.class_name.getD e.class_name) &&
      s.id != sid).length) := by
    rw [filter_length_pos_iff]
    rintro ⟨s, hs, hp⟩
    rw [hnc] at hp
    simp only [Option.getD_none, hsan, Bool.and_eq_true, beq_iff_eq, bne_iff_ne,
      ne_eq] at hp
    obtain ⟨⟨⟨hd, hpd⟩, hcn⟩, hidne⟩ := hp
    have hsne : s ≠ e := fun hh => hidne (hh ▸ hid)
    exact (List.Pairwise.forall symm_not_sameClassSlot hcu) hs hmem hsne ⟨hd, hpd, hcn⟩
  have htch0 : ¬ (0 < (db.schedules.filter fun s =>
      s.day == e.day && s.period == e.period &&
      s.teacher_id == e.teacher_id && s.id != sid).length) := by
    rw [filter_length_pos_iff]
    rintro ⟨s, hs, hp⟩
    simp only [Bool.and_eq_true, beq_iff_eq, bne_iff_ne, ne_eq] at hp
    obtain ⟨⟨⟨hd, hpd⟩, hti⟩, hidne⟩ := hp
    have hsne : s ≠ e := fun hh => hidne (hh ▸ hid)
    exact (List.Pairwise.forall symm_not_sameTeacherSlot htu) hs hmem hsne ⟨hd, hpd, hti⟩
  rw [update_schedule_found u sid upd li t db e hrole hfind]
  by_cases hcase : (upd.subject.isSome || upd.class_name.isSome) = true
  · rw [if_pos hcase, if_neg hcls0, if_neg htch0]
    exact ⟨_, rfl⟩
  · rw [if_neg hcase]
    exact ⟨_, rfl⟩

/-- Claim C5 (amended), witness: a subject-only edit of a clean single-entry
state succeeds without any conflict. -/
theorem C5_subject_only_never_conflicts_witness :
    adminU.role = "admin" ∧
    (dbW4.schedules.find? fun s => s.id == ("a")) = some eW4 ∧
    classUnique dbW4.schedules ∧ teacherUnique dbW4.schedules ∧
    sanitize_input eW4.class_name = eW4.class_name ∧
    updW4.class_name = none ∧
    (∃ r, update_schedule adminU ("a") updW4 ("L1") 9 dbW4 = .ok r) :=
  ⟨rfl, rfl, by decide, by decide, by decide, rfl,
    C5_subject_only_never_conflicts adminU ("a") updW4 ("L1") 9 dbW4 eW4 rfl rfl
      (by decide) (by decide) (by decide) rfl⟩

/-- Claim C6: for a teacher-role caller, every returned changelog record
belongs to the caller (`teacher_id` equals the own id of the caller), and the
returned list is identical for any two values of the `teacher_id` query
parameter — the parameter has no influence on the result for a teacher. -/
theorem C6_teacher_changelog_scope (u : User) (p1 p2 : Option String) (db : DB)
    (hrole : u.role = "teacher") :
    (∀ c ∈ get_changelogs u p1 db, c.teacher_id = u.id) ∧
    get_changelogs u p1 db = get_changelogs u p2 db := by
  have hf : ∀ p : Option String, filteredChangelogs u p db =
      db.changelogs.filter fun c => c.teacher_id == u.id := by
    intro p
    unfold filteredChangelogs
    rw [if_pos (by simp [hrole])]
  constructor
  · intro c hc
    simp only [get_changelogs] at hc
    have h1 : c ∈ sortDesc (filteredChangelogs u p1 db) := List.mem_of_mem_take hc
    have h2 : c ∈ filteredChangelogs u p1 db :=
      ((List.perm_insertionSort tsDescRel (filteredChangelogs u p1 db)).mem_iff).mp h1
    rw [hf] at h2
    simpa using (List.mem_filter.mp h2).2
  · simp only [get_changelogs]
    rw [hf p1, hf p2]

/-- Claim C6, witness: a teacher caller gets the same own-records list whether
the query parameter names another teacher or is absent. -/
theorem C6_teacher_changelog_scope_witness :
    teachU.role = "teacher" ∧
    ((∀ c ∈ get_changelogs teachU (some ("zz")) dbL, c.teacher_id = teachU.id) ∧
     get_changelogs teachU (some ("zz")) dbL = get_changelogs teachU none dbL) :=
  ⟨rfl, C6_teacher_changelog_scope teachU (some ("zz")) none dbL rfl⟩

/-- Claim C7 (amended): errors at this boundary carry exactly these status
codes — forbidden role is 403 on both operations, a missing schedule id on
update is 404, and every remaining error of create or update (reachable only
as one of the two conflict rejections, whose messages the last two conjuncts
name) carries status 400, the code the source uses for conflicts instead of a
409-equivalent. -/
theorem C7_error_status_codes (u : User) (d : ScheduleCreate) (i : String) (t : Nat)
    (db : DB) (sid : String) (upd : ScheduleUpdate) (li : String) :
    (u.role ≠ "admin" →
      create_schedule u d i t db = .error ⟨403, adminRequiredDetail⟩ ∧
      update_schedule u sid upd li t db = .error ⟨403, adminRequiredDetail⟩) ∧
    (u.role = "admin" → db.schedules.find? (fun s => s.id == sid) = none →
      update_schedule u sid upd li t db = .error ⟨404, scheduleNotFoundDetail⟩) ∧
    (∀ err : HTTPError, u.role = "admin" → create_schedule u d i t db = .error err →
      err.status = 400 ∧ (err.detail = classConflictDetail ∨
        err.detail = teacherConflictDetail d.teacher_name)) ∧
    (∀ err : HTTPError, ∀ e : ScheduleEntry, u.role = "admin" →
      db.schedules.find? (fun s => s.id == sid) = some e →
      update_schedule u sid upd li t db = .error err →
      err.status = 400 ∧ (err.detail = classConflictDetail ∨
        err.detail = teacherConflictDetail e.teacher_name)) := by
  refine ⟨?_, ?_, ?_, ?_⟩
  · intro hrole
    constructor
    · unfold create_schedule
      rw [if_pos (by simpa [bne_iff_ne] using hrole)]
    · unfold update_schedule
      rw [if_pos (by simpa [bne_iff_ne] using hrole)]
  · intro hrole hnone
    exact update_schedule_notFound u sid upd li t db hrole hnone
  · intro err hrole herr
    unfold create_schedule at herr
    rw [if_neg (by simp [hrole])] at herr
    split at herr
    · injection herr with h2
      subst h2
      exact ⟨rfl, Or.inl rfl⟩
    · split at herr
      · injection herr with h2
        subst h2
        exact ⟨rfl, Or.inr rfl⟩
      · simp at herr
  · intro err e hrole hfind herr
    rw [update_schedule_found u sid upd li t db e hrole hfind] at herr
    split at herr
    · split at herr
      · injection herr with h2
        subst h2
        exact ⟨rfl, Or.inl rfl⟩
      · split at herr
        · injection herr with h2
          subst h2
          exact ⟨rfl, Or.inr rfl⟩
        · unfold applyUpdateAndLog at herr
          simp at herr
    · unfold applyUpdateAndLog at herr
      simp at herr

/-- Claim C7 (amended), witness: a teacher-role caller is rejected with 403 on
both create and update. -/
theorem C7_error_status_codes_witness :
    teachU.role ≠ "admin" ∧
    (create_schedule teachU ⟨("t2"), ("T Two"), ("Monday"), 1, ("Phys"), ("10A")⟩
        ("i") 3 dbW8 = .error ⟨403, adminRequiredDetail⟩ ∧
     update_schedule teachU ("a") updW4 ("L1") 9 dbW8 =
        .error ⟨403, adminRequiredDetail⟩) :=
  ⟨by decide,
    (C7_error_status_codes teachU ⟨("t2"), ("T Two"), ("Monday"), 1, ("Phys"), ("10A")⟩
      ("i") 3 dbW8 ("a") updW4 ("L1")).1 (by decide)⟩

/-- Claim C10: for every caller the changelog listing returns
`min 100 (number of matching records)` records; together with the dropped
suffix of the sorted matches it is a permutation of all matching records, and
the timestamp of every omitted record is at most the timestamp of every
returned record — the listing is the (up to) 100 newest matching records. -/
theorem C10_changelog_limit (u : User) (p : Option String) (db : DB) :
    (get_changelogs u p db).length = min 100 (filteredChangelogs u p db).length ∧
    (filteredChangelogs u p db).Perm
      (get_changelogs u p db ++ (sortDesc (filteredChangelogs u p db)).drop 100) ∧
    ∀ x ∈ get_changelogs u p db, ∀ y ∈ (sortDesc (filteredChangelogs u p db)).drop 100,
      y.timestamp ≤ x.timestamp := by
  refine ⟨?_, ?_, ?_⟩
  · simp only [get_changelogs, sortDesc, List.length_take]
    rw [(List.perm_insertionSort tsDescRel (filteredChangelogs u p db)).length_eq]
  · show (filteredChangelogs u p db).Perm
      ((sortDesc (filteredChangelogs u p db)).take 100 ++
       (sortDesc (filteredChangelogs u p db)).drop 100)
    rw [List.take_append_drop]
    exact (List.perm_insertionSort tsDescRel (filteredChangelogs u p db)).symm
  · have hpw : List.Pairwise tsDescRel
        ((sortDesc (filteredChangelogs u p db)).take 100 ++
         (sortDesc (filteredChangelogs u p db)).drop 100) := by
      rw [List.take_append_drop]
      exact List.sorted_insertionSort tsDescRel (filteredChangelogs u p db)
    intro x hx y hy
    exact (List.pairwise_append.mp hpw).2.2 x hx y hy

/-- Claim C10, witness: the limit theorem instantiated at a concrete state. -/
theorem C10_changelog_limit_witness :
    (get_changelogs adminU none dbL).length =
      min 100 (filteredChangelogs adminU none dbL).length ∧
    (filteredChangelogs adminU none dbL).Perm
      (get_changelogs adminU none dbL ++
       (sortDesc (filteredChangelogs adminU none dbL)).drop 100) ∧
    ∀ x ∈ get_changelogs adminU none dbL,
      ∀ y ∈ (sortDesc (filteredChangelogs adminU none dbL)).drop 100,
        y.timestamp ≤ x.timestamp :=
  C10_changelog_limit adminU none dbL

/-- Claim C9, witness: the frame condition evaluated on the concrete
single-entry update scenario. -/
theorem C9_update_frame_witness :
    (dbW4.schedules.find? fun s => s.id == ("a")) = some eW4 ∧
    update_schedule adminU ("a") updW4 ("L1") 9 dbW4 = .ok resW4 ∧
    (resW4.1.schedules =
      (dbW4.schedules.map fun s => if s.id == ("a") then applyUpdate updW4 9 s else s) ∧
    (∀ s : ScheduleEntry, (applyUpdate updW4 9 s).id = s.id ∧
      (applyUpdate updW4 9 s).teacher_id = s.teacher_id ∧
      (applyUpdate updW4 9 s).teacher_name = s.teacher_name ∧
      (applyUpdate updW4 9 s).day = s.day ∧
      (applyUpdate updW4 9 s).period = s.period ∧
      (applyUpdate updW4 9 s).subject = updW4.subject.getD s.subject ∧
      (applyUpdate updW4 9 s).class_name = updW4.class_name.getD s.class_name ∧
      (applyUpdate updW4 9 s).updated_at = 9) ∧
    (∀ s ∈ dbW4.schedules, s.id ≠ ("a") → s ∈ resW4.1.schedules) ∧
    resW4.2 = applyUpdate updW4 9 eW4) :=
  ⟨rfl, rfl, C9_update_frame adminU ("a") updW4 ("L1") 9 dbW4 eW4 resW4 rfl rfl⟩

end SSMS
